import Mathlib

/-!
Shallow embedding of src/calc.c (simplecalc), a command-line calculator over
32-bit operands. Unsigned machine values are Nat reduced mod 2 ^ 32 where C
would wrap; signed values are Int; the C process-exit error paths of
handle_error plus exit become Except results. Each definition mirrors one C
function of the source and keeps its name.
-/

namespace SimpleCalc

/-- The modulus of C uint32_t arithmetic, 2 ^ 32. -/
def UINT32_MOD : Nat := 2 ^ 32

/-- INT32_MAX from limits.h. -/
def INT32_MAX : Int := 2147483647

/-- INT32_MIN from limits.h. -/
def INT32_MIN : Int := -2147483648

/-- The C cast (int32_t)x applied to a uint32_t value: reinterpret the 32-bit
pattern as signed two's complement. Used at the call sites of
perform_calculation for the arithmetic operators. -/
def toInt32 (n : Nat) : Int :=
  if n < 2147483648 then (n : Int) else (n : Int) - 4294967296

/-- Reduction of an integer to its uint32_t bit pattern, as produced for a
negative decimal argument by strtoul followed by the narrowing to uint32_t in
main (strtoul negates the parsed magnitude in unsigned arithmetic). -/
def toUInt32 (i : Int) : Nat :=
  (i % 4294967296).toNat

/-- Error outcomes of the evaluator, one per handle_error category in calc.c:
arithmeticOverflow stands for the three result-out-of-bounds messages of
perform_addition, perform_subtraction and perform_multiplication;
divisionByZero stands for the zero-divisor messages of perform_division,
perform_modulo and validate_operands; unsupportedOperator stands for the
unsupported-operator message of perform_calculation. -/
inductive CalcError where
  | arithmeticOverflow
  | divisionByZero
  | unsupportedOperator
  deriving DecidableEq

/-- Printed result values of perform_calculation: intVal is printed with %d,
uintVal with %u, floatVal with %.2f. The double produced by perform_division
is modelled by the exact rational quotient; IEEE-754 rounding is outside this
embedding. -/
inductive CalcValue where
  | intVal (i : Int)
  | uintVal (n : Nat)
  | floatVal (q : Rat)
  deriving DecidableEq

deriving instance DecidableEq for Except

/-- rotate_left from calc.c: the count is reduced mod 32, then the result is
(value << count) | (value >> (32 - count)) in uint32_t arithmetic. When the
reduced count is 0 the C source evaluates the full-width shift value >> 32,
which is undefined behavior in C; the total embedding evaluates it to 0. -/
def rotate_left (value count : Nat) : Nat :=
  ((value <<< (count % 32)) % UINT32_MOD) ||| (value >>> (32 - count % 32))

/-- rotate_right from calc.c: the count is reduced mod 32, then the result is
(value >> count) | (value << (32 - count)) in uint32_t arithmetic. When the
reduced count is 0 the C source evaluates the full-width shift value << 32,
undefined in C; the total embedding evaluates it to 0 after the mod. -/
def rotate_right (value count : Nat) : Nat :=
  (value >>> (count % 32)) ||| ((value <<< (32 - count % 32)) % UINT32_MOD)

/-- perform_addition from calc.c: the sum is formed in int64_t (exact for
int32_t inputs, modelled by unbounded Int), then range-checked against
INT32_MAX and INT32_MIN; out of range reports an error and exits. -/
def perform_addition (operand1 operand2 : Int) : Except CalcError Int :=
  if INT32_MAX < operand1 + operand2 ∨ operand1 + operand2 < INT32_MIN then
    Except.error CalcError.arithmeticOverflow
  else
    Except.ok (operand1 + operand2)

/-- perform_subtraction from calc.c: int64_t difference, then range check. -/
def perform_subtraction (operand1 operand2 : Int) : Except CalcError Int :=
  if INT32_MAX < operand1 - operand2 ∨ operand1 - operand2 < INT32_MIN then
    Except.error CalcError.arithmeticOverflow
  else
    Except.ok (operand1 - operand2)

/-- perform_multiplication from calc.c: int64_t product, then range check. -/
def perform_multiplication (operand1 operand2 : Int) : Except CalcError Int :=
  if INT32_MAX < operand1 * operand2 ∨ operand1 * operand2 < INT32_MIN then
    Except.error CalcError.arithmeticOverflow
  else
    Except.ok (operand1 * operand2)

/-- perform_division from calc.c: zero divisor reports an error and exits,
otherwise the quotient (double)operand1 / operand2 is returned; the double is
modelled by the exact rational quotient. -/
def perform_division (operand1 operand2 : Int) : Except CalcError Rat :=
  if operand2 = 0 then
    Except.error CalcError.divisionByZero
  else
    Except.ok ((operand1 : Rat) / (operand2 : Rat))

/-- perform_modulo from calc.c: zero divisor reports an error and exits,
otherwise operand1 % operand2, the C truncating remainder, modelled by
Int.tmod. The divisor test is the only guard in the C function. -/
def perform_modulo (operand1 operand2 : Int) : Except CalcError Int :=
  if operand2 = 0 then
    Except.error CalcError.divisionByZero
  else
    Except.ok (Int.tmod operand1 operand2)

/-- perform_left_shift from calc.c: operand1 << operand2 in uint32_t
arithmetic, with no reduction of the shift count. For operand2 at least 32 the
C shift is undefined behavior; the total embedding yields 0. -/
def perform_left_shift (operand1 operand2 : Nat) : Nat :=
  (operand1 <<< operand2) % UINT32_MOD

/-- perform_right_shift from calc.c: operand1 >> operand2, no count
reduction; undefined in C for counts of 32 or more, 0 in the embedding. -/
def perform_right_shift (operand1 operand2 : Nat) : Nat :=
  operand1 >>> operand2

/-- perform_and from calc.c. -/
def perform_and (operand1 operand2 : Nat) : Nat :=
  operand1 &&& operand2

/-- perform_or from calc.c. -/
def perform_or (operand1 operand2 : Nat) : Nat :=
  operand1 ||| operand2

/-- perform_xor from calc.c. -/
def perform_xor (operand1 operand2 : Nat) : Nat :=
  operand1 ^^^ operand2

/-- Indexing operator[i] of a C string: reading at or past the end of the
token yields the NUL terminator, as the switch in perform_calculation does
for short tokens. -/
def charAt (s : String) (i : Nat) : Char :=
  s.data.getD i (Char.ofNat 0)

/-- perform_calculation from calc.c. First, tokens of length exactly 3 equal
to the rotation symbols are dispatched (the strlen check plus strncmp with
length 3 amounts to full equality with the three-character token). Every
other token is dispatched by switching on its FIRST character only, with the
second and third characters inspected only in the two shift cases; trailing
characters are never rejected. -/
def perform_calculation (operand1 : Nat) (op : String) (operand2 : Nat) :
    Except CalcError CalcValue :=
  if op = "<<<" then
    Except.ok (CalcValue.uintVal (rotate_left operand1 operand2))
  else if op = ">>>" then
    Except.ok (CalcValue.uintVal (rotate_right operand1 operand2))
  else if charAt op 0 = '+' then
    Except.map CalcValue.intVal (perform_addition (toInt32 operand1) (toInt32 operand2))
  else if charAt op 0 = '-' then
    Except.map CalcValue.intVal (perform_subtraction (toInt32 operand1) (toInt32 operand2))
  else if charAt op 0 = '*' then
    Except.map CalcValue.intVal (perform_multiplication (toInt32 operand1) (toInt32 operand2))
  else if charAt op 0 = '/' then
    Except.map CalcValue.floatVal (perform_division (toInt32 operand1) (toInt32 operand2))
  else if charAt op 0 = '%' then
    Except.map CalcValue.intVal (perform_modulo (toInt32 operand1) (toInt32 operand2))
  else if charAt op 0 = '<' then
    if charAt op 1 = '<' then
      Except.ok (CalcValue.uintVal (perform_left_shift operand1 operand2))
    else
      Except.error CalcError.unsupportedOperator
  else if charAt op 0 = '>' then
    if charAt op 1 = '>' then
      if charAt op 2 = '>' then
        Except.ok (CalcValue.uintVal (rotate_right operand1 operand2))
      else
        Except.ok (CalcValue.uintVal (perform_right_shift operand1 operand2))
    else
      Except.error CalcError.unsupportedOperator
  else if charAt op 0 = '&' then
    Except.ok (CalcValue.uintVal (perform_and operand1 operand2))
  else if charAt op 0 = '|' then
    Except.ok (CalcValue.uintVal (perform_or operand1 operand2))
  else if charAt op 0 = '^' then
    Except.ok (CalcValue.uintVal (perform_xor operand1 operand2))
  else
    Except.error CalcError.unsupportedOperator

/-- validate_operands from calc.c: strncmp(operator, symbol, 1) tests only
the first character of the token; the function rejects (returns 0, here
false) exactly a zero second operand under a token starting with the division
or modulo symbol, and accepts everything else. operand1 is never inspected. -/
def validate_operands (operand1 operand2 : Int) (op : String) : Bool :=
  if charAt op 0 = '/' ∨ charAt op 0 = '%' then
    if operand2 = 0 then false else true
  else
    true

/-- The evaluation pipeline of main after strtoul parsing: validate_operands
on the int32_t reinterpretations of the two uint32_t operands, then
perform_calculation on the uint32_t values themselves. A validation failure
exits, modelled by the divisionByZero error it can only arise from. -/
def main_calc (operand1 : Nat) (op : String) (operand2 : Nat) :
    Except CalcError CalcValue :=
  if validate_operands (toInt32 operand1) (toInt32 operand2) op then
    perform_calculation operand1 op operand2
  else
    Except.error CalcError.divisionByZero

/-- The truncating remainder is nonpositive when the dividend is: companion of
Int.tmod_nonneg, proved by the same constructor analysis as the library
lemmas about Int.tmod. -/
theorem tmod_nonpos (a b : Int) (ha : a ≤ 0) : Int.tmod a b ≤ 0 := by
  cases a with
  | ofNat m =>
    rw [Int.ofNat_eq_coe] at ha
    have hm : m = 0 := by omega
    subst hm
    simp
  | negSucc m =>
    cases b with
    | ofNat n =>
      simp only [Int.tmod, Int.ofNat_eq_coe]
      omega
    | negSucc n =>
      simp only [Int.tmod, Int.ofNat_eq_coe]
      omega

/-- rotate_left stays below 2 ^ 32 when its input does. -/
theorem rotate_left_lt (x n : Nat) (hx : x < UINT32_MOD) :
    rotate_left x n < UINT32_MOD := by
  have hx2 : x < 2 ^ 32 := hx
  unfold rotate_left UINT32_MOD
  apply Nat.or_lt_two_pow
  · exact Nat.mod_lt _ (by norm_num)
  · rw [Nat.shiftRight_eq_div_pow]
    exact lt_of_le_of_lt (Nat.div_le_self _ _) hx2

/-- rotate_right stays below 2 ^ 32 when its input does. -/
theorem rotate_right_lt (x n : Nat) (hx : x < UINT32_MOD) :
    rotate_right x n < UINT32_MOD := by
  have hx2 : x < 2 ^ 32 := hx
  unfold rotate_right UINT32_MOD
  apply Nat.or_lt_two_pow
  · rw [Nat.shiftRight_eq_div_pow]
    exact lt_of_le_of_lt (Nat.div_le_self _ _) hx2
  · exact Nat.mod_lt _ (by norm_num)

/-- Bit-level description of rotate_left on 32-bit inputs: bit i of the result
is bit i - k of the input in the upper region and wraps to the top bits in
the lower region, where k is the reduced count. -/
theorem testBit_rotate_left (x n i : Nat) (hx : x < UINT32_MOD) (hi : i < 32) :
    (rotate_left x n).testBit i =
      if i < n % 32 then x.testBit (32 - n % 32 + i) else x.testBit (i - n % 32) := by
  have hx2 : x < 2 ^ 32 := hx
  have hk : n % 32 < 32 := Nat.mod_lt _ (by norm_num)
  have hxb : ∀ j, 32 ≤ j → x.testBit j = false := by
    intro j hj
    exact Nat.testBit_lt_two_pow (lt_of_lt_of_le hx2 (Nat.pow_le_pow_right (by norm_num) hj))
  simp only [rotate_left, UINT32_MOD, Nat.testBit_or, Nat.testBit_mod_two_pow,
    Nat.testBit_shiftLeft, Nat.testBit_shiftRight]
  rcases Nat.lt_or_ge i (n % 32) with hik | hik
  · rw [if_pos hik]
    have h1 : ¬ (n % 32 ≤ i) := by omega
    simp [h1, hi]
  · rw [if_neg (by omega)]
    have h1 : n % 32 ≤ i := hik
    have h2 : x.testBit (32 - n % 32 + i) = false := hxb _ (by omega)
    simp [h1, hi, h2]

/-- Bit-level description of rotate_right on 32-bit inputs, symmetric to
testBit_rotate_left. -/
theorem testBit_rotate_right (x n i : Nat) (hx : x < UINT32_MOD) (hi : i < 32) :
    (rotate_right x n).testBit i =
      if i < 32 - n % 32 then x.testBit (n % 32 + i)
      else x.testBit (i - (32 - n % 32)) := by
  have hx2 : x < 2 ^ 32 := hx
  have hk : n % 32 < 32 := Nat.mod_lt _ (by norm_num)
  have hxb : ∀ j, 32 ≤ j → x.testBit j = false := by
    intro j hj
    exact Nat.testBit_lt_two_pow (lt_of_lt_of_le hx2 (Nat.pow_le_pow_right (by norm_num) hj))
  simp only [rotate_right, UINT32_MOD, Nat.testBit_or, Nat.testBit_mod_two_pow,
    Nat.testBit_shiftLeft, Nat.testBit_shiftRight]
  rcases Nat.lt_or_ge i (32 - n % 32) with hik | hik
  · rw [if_pos hik]
    have h1 : ¬ (32 - n % 32 ≤ i) := by omega
    simp [h1, hi]
  · rw [if_neg (by omega)]
    have h1 : 32 - n % 32 ≤ i := hik
    have h2 : x.testBit (n % 32 + i) = false := hxb _ (by omega)
    simp [h1, hi, h2]

/-- C5: for every uint32 value x and every rotation count n, rotating left by
n and then right by n returns x: rotate_right (rotate_left x n) n = x. -/
theorem C5_rot_roundtrip (x n : Nat) (hx : x < UINT32_MOD) :
    rotate_right (rotate_left x n) n = x := by
  have hx2 : x < 2 ^ 32 := hx
  have hk : n % 32 < 32 := Nat.mod_lt _ (by norm_num)
  have hr : rotate_left x n < UINT32_MOD := rotate_left_lt x n hx
  have hs : rotate_right (rotate_left x n) n < UINT32_MOD :=
    rotate_right_lt _ n hr
  apply Nat.eq_of_testBit_eq
  intro i
  rcases Nat.lt_or_ge i 32 with hi | hi
  · rw [testBit_rotate_right _ n i hr hi]
    rcases Nat.lt_or_ge i (32 - n % 32) with h1 | h1
    · rw [if_pos h1, testBit_rotate_left x n _ hx (by omega), if_neg (by omega)]
      congr 1
      omega
    · rw [if_neg (by omega), testBit_rotate_left x n _ hx (by omega), if_pos (by omega)]
      congr 1
      omega
  · have e1 : (rotate_right (rotate_left x n) n).testBit i = false :=
      Nat.testBit_lt_two_pow
        (lt_of_lt_of_le hs (Nat.pow_le_pow_right (by norm_num) hi))
    have e2 : x.testBit i = false :=
      Nat.testBit_lt_two_pow
        (lt_of_lt_of_le hx2 (Nat.pow_le_pow_right (by norm_num) hi))
    rw [e1, e2]

/-- Witness for C5_rot_roundtrip at x = 3735928559, n = 7. -/
theorem C5_rot_roundtrip_witness :
    (3735928559 : Nat) < UINT32_MOD ∧
    rotate_right (rotate_left 3735928559 7) 7 = 3735928559 :=
  ⟨by decide, C5_rot_roundtrip 3735928559 7 (by decide)⟩

/-- C2: at a reduced count of 0 the rotation source evaluates the expression
(value << 0) | (value >> (32 - 0)), i.e. it DOES perform the full-width shift
value >> 32 that the claim says is avoided; that shift is undefined behavior
in C. The first conjunct exhibits the computed expression at count 0; the
remaining conjuncts record that under the total embedding, where the
full-width shift yields 0, the rotations return the value unchanged at counts
0 and 32. -/
theorem C2_rotl_zero_count :
    rotate_left 5 0 = ((5 <<< 0) % UINT32_MOD) ||| (5 >>> (32 - 0)) ∧
    rotate_left 5 0 = 5 ∧ rotate_left 5 32 = 5 ∧ rotate_right 5 0 = 5 :=
  ⟨rfl, by decide, by decide, by decide⟩

/-- C4 counterexample: the shifts reduce nothing mod 32. At a shift count of
32 the claim predicts the identity (shift by 32 mod 32 = 0 positions), but
perform_left_shift 1 32 and perform_right_shift 3 32 both evaluate to 0 in
the embedding (in C the count-32 shift is undefined behavior). -/
theorem C4_shift_counterexample :
    perform_left_shift 1 32 = 0 ∧ (1 <<< (32 % 32)) % UINT32_MOD = 1 ∧
    perform_right_shift 3 32 = 0 ∧ 3 >>> (32 % 32) = 3 :=
  ⟨by decide, by decide, by decide, by decide⟩

/-- C4 amended: for shift counts below 32 (where the C shift is defined),
perform_left_shift discards bits beyond 32-bit width and perform_right_shift
is the zero-filling logical shift, and both agree with the claimed
mod-32-reduced shift; the source applies no mod-32 reduction, so counts of 32
or more are undefined behavior in C rather than reduced. -/
theorem C4_shift_semantics (a b : Nat) (hb : b < 32) :
    perform_left_shift a b = (a <<< (b % 32)) % UINT32_MOD ∧
    perform_right_shift a b = a >>> (b % 32) ∧
    perform_left_shift a b = a * 2 ^ b % UINT32_MOD ∧
    perform_right_shift a b = a / 2 ^ b := by
  rw [Nat.mod_eq_of_lt hb]
  refine ⟨rfl, rfl, ?_, ?_⟩
  · simp [perform_left_shift, Nat.shiftLeft_eq]
  · simp [perform_right_shift, Nat.shiftRight_eq_div_pow]

/-- Witness for C4_shift_semantics at a = 3, b = 5. -/
theorem C4_shift_semantics_witness :
    (5 : Nat) < 32 ∧
    (perform_left_shift 3 5 = (3 <<< (5 % 32)) % UINT32_MOD ∧
     perform_right_shift 3 5 = 3 >>> (5 % 32) ∧
     perform_left_shift 3 5 = 3 * 2 ^ 5 % UINT32_MOD ∧
     perform_right_shift 3 5 = 3 / 2 ^ 5) :=
  ⟨by decide, C4_shift_semantics 3 5 (by decide)⟩

/-- C6: for int32 inputs, addition, subtraction and multiplication are formed
exactly in the wider representation, returned exactly when the mathematical
result lies in the int32 range, and rejected with arithmeticOverflow when it
lies outside; in particular adding 1 to INT32_MAX fails. -/
theorem C6_wide_overflow_check (a b : Int)
    (ha : INT32_MIN ≤ a ∧ a ≤ INT32_MAX) (hb : INT32_MIN ≤ b ∧ b ≤ INT32_MAX) :
    (INT32_MIN ≤ a + b ∧ a + b ≤ INT32_MAX →
      perform_addition a b = Except.ok (a + b)) ∧
    (INT32_MAX < a + b ∨ a + b < INT32_MIN →
      perform_addition a b = Except.error CalcError.arithmeticOverflow) ∧
    (INT32_MIN ≤ a - b ∧ a - b ≤ INT32_MAX →
      perform_subtraction a b = Except.ok (a - b)) ∧
    (INT32_MAX < a - b ∨ a - b < INT32_MIN →
      perform_subtraction a b = Except.error CalcError.arithmeticOverflow) ∧
    (INT32_MIN ≤ a * b ∧ a * b ≤ INT32_MAX →
      perform_multiplication a b = Except.ok (a * b)) ∧
    (INT32_MAX < a * b ∨ a * b < INT32_MIN →
      perform_multiplication a b = Except.error CalcError.arithmeticOverflow) ∧
    perform_addition 2147483647 1 = Except.error CalcError.arithmeticOverflow := by
  refine ⟨fun h => ?_, fun h => ?_, fun h => ?_, fun h => ?_, fun h => ?_,
    fun h => ?_, by decide⟩
  · unfold perform_addition
    rw [if_neg (not_or.mpr ⟨not_lt.mpr h.2, not_lt.mpr h.1⟩)]
  · unfold perform_addition
    rw [if_pos h]
  · unfold perform_subtraction
    rw [if_neg (not_or.mpr ⟨not_lt.mpr h.2, not_lt.mpr h.1⟩)]
  · unfold perform_subtraction
    rw [if_pos h]
  · unfold perform_multiplication
    rw [if_neg (not_or.mpr ⟨not_lt.mpr h.2, not_lt.mpr h.1⟩)]
  · unfold perform_multiplication
    rw [if_pos h]

/-- Witness for C6_wide_overflow_check at a = 1, b = 2. -/
theorem C6_wide_overflow_check_witness :
    (INT32_MIN ≤ (1 : Int) ∧ (1 : Int) ≤ INT32_MAX) ∧
    (INT32_MIN ≤ (2 : Int) ∧ (2 : Int) ≤ INT32_MAX) ∧
    (INT32_MIN ≤ (1 : Int) + 2 ∧ (1 : Int) + 2 ≤ INT32_MAX) ∧
    perform_addition 1 2 = Except.ok (1 + 2) :=
  ⟨by decide, by decide, by decide,
    (C6_wide_overflow_check 1 2 (by decide) (by decide)).1 (by decide)⟩

/-- C7: a zero divisor makes perform_division and perform_modulo fail with
the division-by-zero error (and is rejected by validate_operands), and a
nonzero divisor always succeeds, for both functions. -/
theorem C7_divzero_guard (x b : Int) (hb : b ≠ 0) :
    perform_division x 0 = Except.error CalcError.divisionByZero ∧
    perform_modulo x 0 = Except.error CalcError.divisionByZero ∧
    (∃ q, perform_division x b = Except.ok q) ∧
    (∃ r, perform_modulo x b = Except.ok r) ∧
    validate_operands x 0 "/" = false ∧
    validate_operands x 0 "%" = false ∧
    validate_operands x b "/" = true ∧
    validate_operands x b "%" = true := by
  have hsl : charAt "/" 0 = '/' ∨ charAt "/" 0 = '%' := Or.inl (by decide)
  have hpc : charAt "%" 0 = '/' ∨ charAt "%" 0 = '%' := Or.inr (by decide)
  refine ⟨rfl, rfl, ⟨(x : Rat) / (b : Rat), ?_⟩, ⟨Int.tmod x b, ?_⟩, rfl, rfl, ?_, ?_⟩
  · unfold perform_division
    rw [if_neg hb]
  · unfold perform_modulo
    rw [if_neg hb]
  · unfold validate_operands
    rw [if_pos hsl, if_neg hb]
  · unfold validate_operands
    rw [if_pos hpc, if_neg hb]

/-- Witness for C7_divzero_guard at x = 7, b = 2. -/
theorem C7_divzero_guard_witness :
    (2 : Int) ≠ 0 ∧
    (perform_division 7 0 = Except.error CalcError.divisionByZero ∧
     perform_modulo 7 0 = Except.error CalcError.divisionByZero ∧
     (∃ q, perform_division 7 2 = Except.ok q) ∧
     (∃ r, perform_modulo 7 2 = Except.ok r) ∧
     validate_operands 7 0 "/" = false ∧
     validate_operands 7 0 "%" = false ∧
     validate_operands 7 2 "/" = true ∧
     validate_operands 7 2 "%" = true) :=
  ⟨by decide, C7_divzero_guard 7 2 (by decide)⟩

/-- C8: for a nonzero divisor, perform_modulo returns the truncating
remainder Int.tmod, whose sign follows the dividend, with the concrete values
Mod(7, 2) = 1 and Mod(-7, 2) = -1. -/
theorem C8_mod_truncating (a b : Int) (hb : b ≠ 0) :
    perform_modulo a b = Except.ok (Int.tmod a b) ∧
    (0 ≤ a → 0 ≤ Int.tmod a b) ∧
    (a ≤ 0 → Int.tmod a b ≤ 0) ∧
    perform_modulo 7 2 = Except.ok 1 ∧
    perform_modulo (-7) 2 = Except.ok (-1) := by
  refine ⟨?_, fun ha => Int.tmod_nonneg b ha, fun ha => tmod_nonpos a b ha,
    by decide, by decide⟩
  unfold perform_modulo
  rw [if_neg hb]

/-- Witness for C8_mod_truncating at a = -7, b = 2. -/
theorem C8_mod_truncating_witness :
    (2 : Int) ≠ 0 ∧ perform_modulo (-7) 2 = Except.ok (Int.tmod (-7) 2) :=
  ⟨by decide, (C8_mod_truncating (-7) 2 (by decide)).1⟩

/-- C10: with dividend INT32_MIN and divisor -1 the modulo passes the only
guard (divisor equal to 0), reaches the unguarded remainder expression, and
under the total 32-bit embedding completes without error with result 0. -/
theorem C10_intmin_mod_neg_one :
    perform_modulo (-2147483648) (-1) = Except.ok (Int.tmod (-2147483648) (-1)) ∧
    perform_modulo (-2147483648) (-1) = Except.ok 0 :=
  ⟨by decide, by decide⟩

/-- C1 counterexample: the operand pair (-1, 1) under the bitwise AND token
evaluates to the unsigned result 1; no validation rejects the negative
operand and no invalid-operand error exists anywhere in the code. The first
operand is the uint32 pattern 4294967295 that main obtains for the input -1. -/
theorem C1_neg_and_counterexample :
    main_calc (toUInt32 (-1)) "&" 1 = Except.ok (CalcValue.uintVal 1) := by
  decide

/-- C1 amended: the bitwise and rotation operators accept every 32-bit
operand pattern, negative ones included; operands are taken as unsigned and
the operation is computed directly, with no sign validation and no
invalid-operand error (validate_operands only guards zero divisors). -/
theorem C1_bitwise_accepts_all (a b : Nat) :
    main_calc a "&" b = Except.ok (CalcValue.uintVal (perform_and a b)) ∧
    main_calc a "|" b = Except.ok (CalcValue.uintVal (perform_or a b)) ∧
    main_calc a "^" b = Except.ok (CalcValue.uintVal (perform_xor a b)) ∧
    main_calc a "<<" b = Except.ok (CalcValue.uintVal (perform_left_shift a b)) ∧
    main_calc a ">>" b = Except.ok (CalcValue.uintVal (perform_right_shift a b)) ∧
    main_calc a "<<<" b = Except.ok (CalcValue.uintVal (rotate_left a b)) ∧
    main_calc a ">>>" b = Except.ok (CalcValue.uintVal (rotate_right a b)) ∧
    main_calc (toUInt32 (-1)) "&" 1 = Except.ok (CalcValue.uintVal 1) :=
  ⟨rfl, rfl, rfl, rfl, rfl, rfl, rfl, by decide⟩

/-- C3 counterexample: the token ** does not fail with the unsupported
operator error; the switch dispatches on its first character and evaluates it
as multiplication, so (2, **, 3) yields 6. -/
theorem C3_star_star_counterexample :
    main_calc 2 "**" 3 = Except.ok (CalcValue.intVal 6) := by
  decide

/-- C3 amended: dispatch first matches the exact three-character rotation
tokens, so <<< goes to rotate_left and never to the shift with a leftover
character; every other token is dispatched on its first character alone
(second and third characters only in the shift cases), so tokens with
trailing characters such as ** or +1 or <<<< are evaluated rather than
rejected, and only tokens whose leading characters match no case fail with
the unsupported-operator error. -/
theorem C3_first_char_dispatch (a b : Nat) :
    main_calc a "<<<" b = Except.ok (CalcValue.uintVal (rotate_left a b)) ∧
    main_calc a ">>>" b = Except.ok (CalcValue.uintVal (rotate_right a b)) ∧
    main_calc a "**" b =
      Except.map CalcValue.intVal (perform_multiplication (toInt32 a) (toInt32 b)) ∧
    main_calc a "+1" b =
      Except.map CalcValue.intVal (perform_addition (toInt32 a) (toInt32 b)) ∧
    main_calc a "<<<<" b = Except.ok (CalcValue.uintVal (perform_left_shift a b)) ∧
    main_calc a ">>>>" b = Except.ok (CalcValue.uintVal (rotate_right a b)) ∧
    main_calc a "<" b = Except.error CalcError.unsupportedOperator ∧
    main_calc a ">" b = Except.error CalcError.unsupportedOperator ∧
    main_calc a "?" b = Except.error CalcError.unsupportedOperator :=
  ⟨rfl, rfl, rfl, rfl, rfl, rfl, rfl, rfl, rfl⟩

end SimpleCalc
